import Mathlib

/-!
Verification of the data-model fragment of SpeechDialogueFactory
(`src/data/dialogue.py`): pydantic-style validated records
(DialogueScenario, Setting, Role, ConversationContext, Metadata,
ConversationTurn, Conversation, Dialogue) together with the persistence
helpers bound to `Dialogue` (JSON save/load, pickle save/load, batch
pickle save/load).

The shallow embedding models JSON documents as an inductive `JValue`
tree.  The base class `DataClassModel` (from `data/common.py`, not part
of the sources) supplies `to_json`/`from_json`; following the
specification these are modelled abstractly: a structured-text file is
represented by its parsed JSON value together with the formatting flag
(pretty or compact), or by a `malformed` marker for text that is not
well-formed JSON.  Validation of a record from a JSON value follows the
field declarations of `dialogue.py` under pydantic semantics: required
fields must be present with a compatible value (integer fields accept
integer-shaped strings by lax coercion), optional fields fall back to
their declared defaults, and `Optional` fields accept `null`.
-/

namespace SDF

/-- Model of a JSON value: the parse tree of the structured text used by
the persistence helpers.  Numbers are modelled as integers, which covers
every value the data model can produce. -/
inductive JValue : Type where
  | null : JValue
  | bool (b : Bool) : JValue
  | int (n : Int) : JValue
  | str (s : String) : JValue
  | arr (items : List JValue) : JValue
  | obj (members : List (String × JValue)) : JValue

/-- Outcome class of a failed record construction (pydantic
`ValidationError`). -/
inductive ValidationError : Type where
  | mk : ValidationError
  deriving DecidableEq, Repr

/-- Error classes that the persistence helpers can surface to a caller:
file missing or unreadable, text that is not well-formed JSON, a JSON
value that does not match the schema, and a corrupt pickle blob. -/
inductive DialogueError : Type where
  | ioError : DialogueError
  | parseError : DialogueError
  | validationError : DialogueError
  | deserializationError : DialogueError
  deriving DecidableEq, Repr

/-- Computation rule for `Except` bind on a success value. -/
theorem ok_bind {ε : Type u} {α β : Type v} (a : α) (f : α → Except ε β) :
    (Except.ok a : Except ε α) >>= f = f a := rfl

/-- Inversion for `Except` bind: a successful bind factors through a
successful first step. -/
theorem bind_ok_inv {ε : Type u} {α β : Type v} {x : Except ε α}
    {f : α → Except ε β} {b : β} (h : x >>= f = .ok b) :
    ∃ a, x = .ok a ∧ f a = .ok b := by
  cases x with
  | ok a => exact ⟨a, rfl, h⟩
  | error e => exact Except.noConfusion h

/-- Validate a JSON value against a declared `str` field: only a JSON
string is accepted. -/
def asStr : JValue → Except ValidationError String
  | .str s => .ok s
  | _ => .error .mk

/-- Accumulate decimal digits into a number, rejecting any non-digit
character. -/
def natOfDigitsAux : Nat → List Char → Option Nat
  | acc, [] => some acc
  | acc, c :: cs =>
    if c.isDigit then natOfDigitsAux (acc * 10 + (c.toNat - 48)) cs else none

/-- Integer shape of a string, as Python's `int(...)` coercion reads
it: an optional minus sign followed by a nonempty run of decimal
digits; anything else (such as `"thirty"`) is not an integer. -/
def strToInt? (s : String) : Option Int :=
  match s.toList with
  | [] => none
  | '-' :: cs =>
    match cs with
    | [] => none
    | _ => (natOfDigitsAux 0 cs).map (fun n => -(n : Int))
  | cs => (natOfDigitsAux 0 cs).map (fun n => (n : Int))

/-- Validate a JSON value against a declared `int` field: a JSON integer
is accepted, and (pydantic lax mode) a string is coerced when it spells
an integer, as `"30"` does and `"thirty"` does not. -/
def asInt : JValue → Except ValidationError Int
  | .int n => .ok n
  | .str s =>
    match strToInt? s with
    | some n => .ok n
    | none => .error .mk
  | _ => .error .mk

/-- Validate each element of a list of JSON values, failing when any
element fails. -/
def parseEach (pf : JValue → Except ValidationError α) :
    List JValue → Except ValidationError (List α)
  | [] => .ok []
  | v :: vs => do
    let a ← pf v
    let as ← parseEach pf vs
    pure (a :: as)

/-- Validate a JSON value against a declared `List[...]` field. -/
def asList (pf : JValue → Except ValidationError α) :
    JValue → Except ValidationError (List α)
  | .arr items => parseEach pf items
  | _ => .error .mk

/-- Look up a required field in the members of a JSON object and
validate it; a missing field is a validation error. -/
def reqField (members : List (String × JValue)) (name : String)
    (pf : JValue → Except ValidationError α) : Except ValidationError α :=
  match members.lookup name with
  | none => .error .mk
  | some v => pf v

/-- Validate a JSON value against an `Optional[...]` field: `null` maps
to an absent value, anything else must satisfy the inner validator. -/
def optFromJ (pf : JValue → Except ValidationError α) :
    JValue → Except ValidationError (Option α)
  | .null => .ok none
  | v => (pf v).map some

/-- Look up an `Optional[...] = None`-style field: missing or `null`
yields the absent value. -/
def optField (members : List (String × JValue)) (name : String)
    (pf : JValue → Except ValidationError α) :
    Except ValidationError (Option α) :=
  match members.lookup name with
  | none => .ok none
  | some v => optFromJ pf v

/-- Serialize an optional value: absent values serialize to `null`. -/
def optToJ (f : α → JValue) : Option α → JValue
  | none => .null
  | some a => f a

/-- Dialogue scenario model representing the high-level parameters for
dialogue generation (`DialogueScenario` in `dialogue.py`): four required
string fields, `dialogue_language` defaulting to `"English"`, and the
`Optional[str]` field `custom_prompt` defaulting to the empty string. -/
structure DialogueScenario : Type where
  dialogue_type : String
  temporal_context : String
  spatial_context : String
  cultural_background : String
  dialogue_language : String := "English"
  custom_prompt : Option String := some ""
  deriving DecidableEq, Repr

/-- Declared field names of `DialogueScenario`, in declaration order. -/
def DialogueScenario.field_names : List String :=
  ["dialogue_type", "temporal_context", "spatial_context",
   "cultural_background", "dialogue_language", "custom_prompt"]

/-- The `json_schema_extra` exclusion list from
`DialogueScenario.model_config` (line 37 of `dialogue.py`), exactly as
written in the source. -/
def DialogueScenario.model_config_schema_exclude : List String :=
  ["language", "custom_prompt"]

/-- The `Setting` record: four required string fields. -/
structure Setting : Type where
  location : String
  time_of_day : String
  context : String
  atmosphere : String
  deriving DecidableEq, Repr

/-- The `Role` record: one of the two speakers.  `age` is the only
integer field; `personality_traits` is an ordered list of strings. -/
structure Role : Type where
  name : String
  gender : String
  age : Int
  occupation : String
  nationality : String
  personality_traits : List String
  relationship_context : String
  self_introduction : String
  deriving DecidableEq, Repr

/-- The `ConversationContext` record. -/
structure ConversationContext : Type where
  type : String
  main_topic : String
  relationship_dynamic : String
  emotional_tone : String
  expected_duration : String
  expected_turns : Int
  key_points : List String
  deriving DecidableEq, Repr

/-- The `Metadata` record: a setting, two roles and a conversation
context, all required. -/
structure Metadata : Type where
  setting : Setting
  role_1 : Role
  role_2 : Role
  conversation_context : ConversationContext
  deriving DecidableEq, Repr

/-- The `ConversationTurn` record: one utterance, seven required string
fields. -/
structure ConversationTurn : Type where
  speaker_id : String
  speaker_name : String
  text : String
  emotion : String
  speech_rate : String
  pause_after : String
  tts_prompt : String
  deriving DecidableEq, Repr

/-- The `Conversation` wrapper record: an ordered list of turns
(declared in the source but not referenced by `Dialogue`). -/
structure Conversation : Type where
  utterances : List ConversationTurn
  deriving DecidableEq, Repr

/-- Modelled from the spec: `ConsistencyEvaluation` is defined in
`data/evaluation.py`, which is absent from the sources; the spec treats
it as an externally defined record that is consumed and stored as-is.
It is modelled as an opaque-content record carrying its own JSON object
members unchanged. -/
structure ConsistencyEvaluation : Type where
  members : List (String × JValue)

/-- The `Dialogue` aggregate root: every field optional with default
`None`, supporting incremental construction. -/
structure Dialogue : Type where
  scenario : Option DialogueScenario := none
  metadata : Option Metadata := none
  script : Option String := none
  conversation : Option (List ConversationTurn) := none
  consistency_evaluation : Option ConsistencyEvaluation := none

/-! ## Serialization (pydantic `model_dump` to a JSON value)

Every declared field is emitted under its declared name; absent optional
values are emitted as `null`; nested records are serialized
recursively. -/

/-- Serialize a `DialogueScenario` to its JSON value. -/
def DialogueScenario.toJ (s : DialogueScenario) : JValue :=
  .obj [("dialogue_type", .str s.dialogue_type),
        ("temporal_context", .str s.temporal_context),
        ("spatial_context", .str s.spatial_context),
        ("cultural_background", .str s.cultural_background),
        ("dialogue_language", .str s.dialogue_language),
        ("custom_prompt", optToJ JValue.str s.custom_prompt)]

/-- Serialize a `Setting` to its JSON value. -/
def Setting.toJ (s : Setting) : JValue :=
  .obj [("location", .str s.location),
        ("time_of_day", .str s.time_of_day),
        ("context", .str s.context),
        ("atmosphere", .str s.atmosphere)]

/-- Serialize a `Role` to its JSON value. -/
def Role.toJ (r : Role) : JValue :=
  .obj [("name", .str r.name),
        ("gender", .str r.gender),
        ("age", .int r.age),
        ("occupation", .str r.occupation),
        ("nationality", .str r.nationality),
        ("personality_traits", .arr (r.personality_traits.map JValue.str)),
        ("relationship_context", .str r.relationship_context),
        ("self_introduction", .str r.self_introduction)]

/-- Serialize a `ConversationContext` to its JSON value. -/
def ConversationContext.toJ (c : ConversationContext) : JValue :=
  .obj [("type", .str c.type),
        ("main_topic", .str c.main_topic),
        ("relationship_dynamic", .str c.relationship_dynamic),
        ("emotional_tone", .str c.emotional_tone),
        ("expected_duration", .str c.expected_duration),
        ("expected_turns", .int c.expected_turns),
        ("key_points", .arr (c.key_points.map JValue.str))]

/-- Serialize a `Metadata` to its JSON value. -/
def Metadata.toJ (m : Metadata) : JValue :=
  .obj [("setting", m.setting.toJ),
        ("role_1", m.role_1.toJ),
        ("role_2", m.role_2.toJ),
        ("conversation_context", m.conversation_context.toJ)]

/-- Serialize a `ConversationTurn` to its JSON value. -/
def ConversationTurn.toJ (t : ConversationTurn) : JValue :=
  .obj [("speaker_id", .str t.speaker_id),
        ("speaker_name", .str t.speaker_name),
        ("text", .str t.text),
        ("emotion", .str t.emotion),
        ("speech_rate", .str t.speech_rate),
        ("pause_after", .str t.pause_after),
        ("tts_prompt", .str t.tts_prompt)]

/-- Serialize a `ConsistencyEvaluation`: its JSON object is stored
as-is. -/
def ConsistencyEvaluation.toJ (e : ConsistencyEvaluation) : JValue :=
  .obj e.members

/-- Serialize a `Dialogue` to its JSON value: all five fields are
emitted, with `null` for each absent one. -/
def Dialogue.toJ (d : Dialogue) : JValue :=
  .obj [("scenario", optToJ DialogueScenario.toJ d.scenario),
        ("metadata", optToJ Metadata.toJ d.metadata),
        ("script", optToJ JValue.str d.script),
        ("conversation",
          optToJ (fun ts => .arr (ts.map ConversationTurn.toJ)) d.conversation),
        ("consistency_evaluation",
          optToJ ConsistencyEvaluation.toJ d.consistency_evaluation)]

/-! ## Validated construction (pydantic `model_validate` from a mapping)

Each record validates from the member list of a JSON object, per the
field declarations in `dialogue.py`: required fields must be present and
of compatible shape, fields with defaults fall back to the declared
default when missing, and `Optional` fields accept `null`. -/

/-- Validate a `DialogueScenario` from a field mapping.  Missing
`dialogue_language` defaults to `"English"`; missing `custom_prompt`
defaults to the empty string, while an explicit `null` yields an absent
value. -/
def DialogueScenario.validate (members : List (String × JValue)) :
    Except ValidationError DialogueScenario := do
  let dialogue_type ← reqField members "dialogue_type" asStr
  let temporal_context ← reqField members "temporal_context" asStr
  let spatial_context ← reqField members "spatial_context" asStr
  let cultural_background ← reqField members "cultural_background" asStr
  let dialogue_language ←
    match members.lookup "dialogue_language" with
    | none => .ok "English"
    | some v => asStr v
  let custom_prompt ←
    match members.lookup "custom_prompt" with
    | none => .ok (some "")
    | some v => optFromJ asStr v
  pure { dialogue_type, temporal_context, spatial_context,
         cultural_background, dialogue_language, custom_prompt }

/-- Validate a `DialogueScenario` from a JSON value. -/
def DialogueScenario.fromJ : JValue → Except ValidationError DialogueScenario
  | .obj members => DialogueScenario.validate members
  | _ => .error .mk

/-- Validate a `Setting` from a field mapping. -/
def Setting.validate (members : List (String × JValue)) :
    Except ValidationError Setting := do
  let location ← reqField members "location" asStr
  let time_of_day ← reqField members "time_of_day" asStr
  let context ← reqField members "context" asStr
  let atmosphere ← reqField members "atmosphere" asStr
  pure { location, time_of_day, context, atmosphere }

/-- Validate a `Setting` from a JSON value. -/
def Setting.fromJ : JValue → Except ValidationError Setting
  | .obj members => Setting.validate members
  | _ => .error .mk

/-- Validate a `Role` from a field mapping: all eight fields are
required; `age` must be integer-shaped. -/
def Role.validate (members : List (String × JValue)) :
    Except ValidationError Role := do
  let name ← reqField members "name" asStr
  let gender ← reqField members "gender" asStr
  let age ← reqField members "age" asInt
  let occupation ← reqField members "occupation" asStr
  let nationality ← reqField members "nationality" asStr
  let personality_traits ← reqField members "personality_traits" (asList asStr)
  let relationship_context ← reqField members "relationship_context" asStr
  let self_introduction ← reqField members "self_introduction" asStr
  pure { name, gender, age, occupation, nationality,
         personality_traits, relationship_context, self_introduction }

/-- Validate a `Role` from a JSON value. -/
def Role.fromJ : JValue → Except ValidationError Role
  | .obj members => Role.validate members
  | _ => .error .mk

/-- Validate a `ConversationContext` from a field mapping. -/
def ConversationContext.validate (members : List (String × JValue)) :
    Except ValidationError ConversationContext := do
  let type ← reqField members "type" asStr
  let main_topic ← reqField members "main_topic" asStr
  let relationship_dynamic ← reqField members "relationship_dynamic" asStr
  let emotional_tone ← reqField members "emotional_tone" asStr
  let expected_duration ← reqField members "expected_duration" asStr
  let expected_turns ← reqField members "expected_turns" asInt
  let key_points ← reqField members "key_points" (asList asStr)
  pure { type, main_topic, relationship_dynamic, emotional_tone,
         expected_duration, expected_turns, key_points }

/-- Validate a `ConversationContext` from a JSON value. -/
def ConversationContext.fromJ : JValue → Except ValidationError ConversationContext
  | .obj members => ConversationContext.validate members
  | _ => .error .mk

/-- Validate a `Metadata` from a field mapping: nested records are
validated recursively. -/
def Metadata.validate (members : List (String × JValue)) :
    Except ValidationError Metadata := do
  let setting ← reqField members "setting" Setting.fromJ
  let role_1 ← reqField members "role_1" Role.fromJ
  let role_2 ← reqField members "role_2" Role.fromJ
  let conversation_context ←
    reqField members "conversation_context" ConversationContext.fromJ
  pure { setting, role_1, role_2, conversation_context }

/-- Validate a `Metadata` from a JSON value. -/
def Metadata.fromJ : JValue → Except ValidationError Metadata
  | .obj members => Metadata.validate members
  | _ => .error .mk

/-- Validate a `ConversationTurn` from a field mapping. -/
def ConversationTurn.validate (members : List (String × JValue)) :
    Except ValidationError ConversationTurn := do
  let speaker_id ← reqField members "speaker_id" asStr
  let speaker_name ← reqField members "speaker_name" asStr
  let text ← reqField members "text" asStr
  let emotion ← reqField members "emotion" asStr
  let speech_rate ← reqField members "speech_rate" asStr
  let pause_after ← reqField members "pause_after" asStr
  let tts_prompt ← reqField members "tts_prompt" asStr
  pure { speaker_id, speaker_name, text, emotion,
         speech_rate, pause_after, tts_prompt }

/-- Validate a `ConversationTurn` from a JSON value. -/
def ConversationTurn.fromJ : JValue → Except ValidationError ConversationTurn
  | .obj members => ConversationTurn.validate members
  | _ => .error .mk

/-- Validate a `Conversation` wrapper from a field mapping. -/
def Conversation.validate (members : List (String × JValue)) :
    Except ValidationError Conversation := do
  let utterances ← reqField members "utterances" (asList ConversationTurn.fromJ)
  pure { utterances }

/-- Validate a `ConsistencyEvaluation` from a JSON value: the record is
externally defined and stored as-is, so any JSON object is accepted
unchanged. -/
def ConsistencyEvaluation.fromJ : JValue → Except ValidationError ConsistencyEvaluation
  | .obj members => .ok { members }
  | _ => .error .mk

/-- Validate a `Dialogue` from a field mapping: every field is optional
with default `None`; missing or `null` fields are absent, anything else
validates recursively. -/
def Dialogue.validate (members : List (String × JValue)) :
    Except ValidationError Dialogue := do
  let scenario ← optField members "scenario" DialogueScenario.fromJ
  let metadata ← optField members "metadata" Metadata.fromJ
  let script ← optField members "script" asStr
  let conversation ← optField members "conversation" (asList ConversationTurn.fromJ)
  let consistency_evaluation ←
    optField members "consistency_evaluation" ConsistencyEvaluation.fromJ
  pure { scenario, metadata, script, conversation, consistency_evaluation }

/-- Validate a `Dialogue` from a JSON value, as `from_json` does after
parsing. -/
def Dialogue.fromJ : JValue → Except ValidationError Dialogue
  | .obj members => Dialogue.validate members
  | _ => .error .mk

/-! ## Persistence helpers

Modelled from the spec where the rendering layer is concerned:
`DataClassModel.to_json`/`from_json` live in `data/common.py`, which is
absent from the sources, so a structured-text file is modelled
abstractly by its JSON value plus the formatting flag (`pretty` mode
versus compact mode), and text that is not well-formed JSON by a
`malformed` marker.  A file system is a map from paths to file
contents; a missing path models a missing or unreadable file. -/

/-- Content of a structured-text file: either text that is not
well-formed JSON, or well-formed text recorded as its JSON value and
its formatting (pretty with indentation, or compact). -/
inductive JsonContent : Type where
  | malformed : JsonContent
  | wellFormed (pretty : Bool) (v : JValue) : JsonContent

/-- A file system holding structured-text files. -/
def JsonFS : Type := String → Option JsonContent

/-- `Dialogue.save_to_json(file_path, pretty=True)`: serialize the
dialogue and create or overwrite the file at `file_path`; `pretty`
defaults to `True`. -/
def Dialogue.save_to_json (fs : JsonFS) (d : Dialogue) (file_path : String)
    (pretty : Bool := true) : JsonFS :=
  fun q => if q = file_path then some (.wellFormed pretty d.toJ) else fs q

/-- `Dialogue.load_from_json(file_path)`: read the file (an absent or
unreadable file is an `IOError`-class outcome), parse it (text that is
not well-formed JSON is a `ParseError`-class outcome), and validate the
parsed value by the same rules as construction (a mismatch is a
`ValidationError`-class outcome).  Every failure propagates to the
caller; nothing is retried or recovered. -/
def Dialogue.load_from_json (fs : JsonFS) (file_path : String) :
    Except DialogueError Dialogue :=
  match fs file_path with
  | none => .error .ioError
  | some .malformed => .error .parseError
  | some (.wellFormed _ v) =>
    match Dialogue.fromJ v with
    | .ok d => .ok d
    | .error _ => .error .validationError

/-- A Python object graph as pickle stores and reproduces it: the
decoder can hand back any object, not only a `Dialogue`. -/
inductive PyObj : Type where
  | dialogue (d : Dialogue) : PyObj
  | pyList (items : List PyObj) : PyObj
  | pyStr (s : String) : PyObj
  | pyInt (n : Int) : PyObj
  | pyNone : PyObj

/-- Content of a binary pickle file: corrupt bytes the decoder rejects,
or bytes the decoder accepts, recorded as the object graph they decode
to. -/
inductive PickleContent : Type where
  | corrupt : PickleContent
  | stored (o : PyObj) : PickleContent

/-- A file system holding binary pickle files. -/
def PickleFS : Type := String → Option PickleContent

/-- `Dialogue.save_to_pickle(file_path)`: pickle the dialogue itself,
creating or overwriting the file. -/
def Dialogue.save_to_pickle (fs : PickleFS) (d : Dialogue)
    (file_path : String) : PickleFS :=
  fun q => if q = file_path then some (.stored (.dialogue d)) else fs q

/-- `Dialogue.load_from_pickle(file_path)`: read the file and return
whatever `pickle.load` produces, unchanged — no schema or field
validation is applied, so the declared `Dialogue` return type is not
enforced.  A missing file is an `IOError`-class outcome; corrupt bytes
are a deserialization failure. -/
def Dialogue.load_from_pickle (fs : PickleFS) (file_path : String) :
    Except DialogueError PyObj :=
  match fs file_path with
  | none => .error .ioError
  | some .corrupt => .error .deserializationError
  | some (.stored o) => .ok o

/-- `Dialogue.save_batch_to_pickle(dialogues, file_path)`: pickle the
list of dialogues as a single unit. -/
def Dialogue.save_batch_to_pickle (fs : PickleFS) (dialogues : List Dialogue)
    (file_path : String) : PickleFS :=
  fun q =>
    if q = file_path then some (.stored (.pyList (dialogues.map .dialogue)))
    else fs q

/-- `Dialogue.load_batch_from_pickle(file_path)`: identical body to
`load_from_pickle` — it returns whatever `pickle.load` produces,
unchanged, with no validation that the result is a list of
dialogues. -/
def Dialogue.load_batch_from_pickle (fs : PickleFS) (file_path : String) :
    Except DialogueError PyObj :=
  match fs file_path with
  | none => .error .ioError
  | some .corrupt => .error .deserializationError
  | some (.stored o) => .ok o

/-! ## Serialization / validation round-trip lemmas -/

/-- Validating each element of a serialized list recovers the list,
given a per-element round trip. -/
theorem parseEach_map (pf : JValue → Except ValidationError α) (f : α → JValue)
    (h : ∀ a, pf (f a) = .ok a) (xs : List α) :
    parseEach pf (xs.map f) = .ok xs := by
  induction xs with
  | nil => rfl
  | cons a as ih => simp [parseEach, h, ih, ok_bind]

/-- A serialized list of strings validates back to itself. -/
theorem parseEach_str (xs : List String) :
    parseEach asStr (xs.map JValue.str) = .ok xs :=
  parseEach_map asStr JValue.str (fun _ => rfl) xs

/-- An optional string survives serialization to `null`-or-string. -/
theorem optFromJ_str (o : Option String) :
    optFromJ asStr (optToJ JValue.str o) = .ok o := by
  cases o <;> rfl

/-- A `DialogueScenario` validates back from its own serialization. -/
theorem scenario_round (s : DialogueScenario) :
    DialogueScenario.fromJ s.toJ = .ok s := by
  simp [DialogueScenario.fromJ, DialogueScenario.toJ, DialogueScenario.validate,
        reqField, asStr, List.lookup, ok_bind, optFromJ_str]

/-- A `Setting` validates back from its own serialization. -/
theorem setting_round (s : Setting) : Setting.fromJ s.toJ = .ok s := rfl

/-- A `Role` validates back from its own serialization; in particular
the ordered `personality_traits` list is reproduced exactly. -/
theorem role_round (r : Role) : Role.fromJ r.toJ = .ok r := by
  simp [Role.fromJ, Role.toJ, Role.validate, reqField, asStr, asInt, asList,
        parseEach_str, List.lookup, ok_bind]

/-- A `ConversationContext` validates back from its own serialization;
in particular the ordered `key_points` list is reproduced exactly. -/
theorem context_round (c : ConversationContext) :
    ConversationContext.fromJ c.toJ = .ok c := by
  simp [ConversationContext.fromJ, ConversationContext.toJ,
        ConversationContext.validate, reqField, asStr, asInt, asList,
        parseEach_str, List.lookup, ok_bind]

/-- A `Metadata` validates back from its own serialization. -/
theorem metadata_round (m : Metadata) : Metadata.fromJ m.toJ = .ok m := by
  simp [Metadata.fromJ, Metadata.toJ, Metadata.validate, reqField,
        List.lookup, ok_bind, setting_round, role_round,
        context_round]

/-- A `ConversationTurn` validates back from its own serialization. -/
theorem turn_round (t : ConversationTurn) :
    ConversationTurn.fromJ t.toJ = .ok t := rfl

/-- A `ConsistencyEvaluation` validates back from its own
serialization. -/
theorem ce_round (e : ConsistencyEvaluation) :
    ConsistencyEvaluation.fromJ e.toJ = .ok e := rfl

/-- An optional `DialogueScenario` field survives serialization. -/
theorem optFromJ_scenario (o : Option DialogueScenario) :
    optFromJ DialogueScenario.fromJ (optToJ DialogueScenario.toJ o) = .ok o := by
  cases o with
  | none => rfl
  | some s =>
    show (DialogueScenario.fromJ s.toJ).map some = .ok (some s)
    rw [scenario_round]
    rfl

/-- An optional `Metadata` field survives serialization. -/
theorem optFromJ_metadata (o : Option Metadata) :
    optFromJ Metadata.fromJ (optToJ Metadata.toJ o) = .ok o := by
  cases o with
  | none => rfl
  | some m =>
    show (Metadata.fromJ m.toJ).map some = .ok (some m)
    rw [metadata_round]
    rfl

/-- An optional turn-list field survives serialization. -/
theorem optFromJ_turns (o : Option (List ConversationTurn)) :
    optFromJ (asList ConversationTurn.fromJ)
      (optToJ (fun ts => .arr (ts.map ConversationTurn.toJ)) o) = .ok o := by
  cases o with
  | none => rfl
  | some ts =>
    show (parseEach ConversationTurn.fromJ (ts.map ConversationTurn.toJ)).map some
      = .ok (some ts)
    rw [parseEach_map ConversationTurn.fromJ ConversationTurn.toJ
          turn_round]
    rfl

/-- An optional `ConsistencyEvaluation` field survives serialization. -/
theorem optFromJ_ce (o : Option ConsistencyEvaluation) :
    optFromJ ConsistencyEvaluation.fromJ (optToJ ConsistencyEvaluation.toJ o)
      = .ok o := by
  cases o <;> rfl

/-- A `Dialogue` validates back from its own serialization: the central
round-trip fact behind the JSON persistence pair. -/
theorem dialogue_round (d : Dialogue) : Dialogue.fromJ d.toJ = .ok d := by
  simp [Dialogue.fromJ, Dialogue.toJ, Dialogue.validate, optField,
        List.lookup, ok_bind, optFromJ_scenario, optFromJ_metadata,
        optFromJ_str, optFromJ_turns, optFromJ_ce]

/-! ## Inversion facts about `Role` validation -/

/-- A successful `Role` validation requires an `age` member that passes
the integer check, and records its value in the `age` field. -/
theorem Role.validate_ok_age {members : List (String × JValue)} {r : Role}
    (h : Role.validate members = .ok r) :
    ∃ v, members.lookup "age" = some v ∧ asInt v = .ok r.age := by
  unfold Role.validate at h
  obtain ⟨name, h1, h⟩ := bind_ok_inv h
  obtain ⟨gender, h2, h⟩ := bind_ok_inv h
  obtain ⟨age, h3, h⟩ := bind_ok_inv h
  obtain ⟨occupation, h4, h⟩ := bind_ok_inv h
  obtain ⟨nationality, h5, h⟩ := bind_ok_inv h
  obtain ⟨traits, h6, h⟩ := bind_ok_inv h
  obtain ⟨rc, h7, h⟩ := bind_ok_inv h
  obtain ⟨si, h8, h⟩ := bind_ok_inv h
  have hr : r = { name, gender, age, occupation, nationality,
                  personality_traits := traits, relationship_context := rc,
                  self_introduction := si } := by
    cases h
    rfl
  unfold reqField at h3
  cases hl : members.lookup "age" with
  | none => rw [hl] at h3; exact Except.noConfusion h3
  | some v =>
    rw [hl] at h3
    exact ⟨v, rfl, by rw [hr]; exact h3⟩

/-- Every `Role` validation outcome is either a success or the
validation-error outcome. -/
theorem Role.validate_ok_or_error (members : List (String × JValue)) :
    (∃ r, Role.validate members = .ok r) ∨
      Role.validate members = .error .mk := by
  cases h : Role.validate members with
  | ok r => exact Or.inl ⟨r, rfl⟩
  | error e => cases e; exact Or.inr rfl

/-! ## Claims -/

/-- Claim C1: for every validly constructed `Dialogue` `d` and every
file path, `save_to_json` with either `pretty` mode followed by
`load_from_json` on the same path returns a `Dialogue` structurally
equal to `d`. -/
theorem claim_C1_json_round_trip (fs : JsonFS) (d : Dialogue) (p : String)
    (pretty : Bool) :
    Dialogue.load_from_json (Dialogue.save_to_json fs d p pretty) p = .ok d := by
  simp [Dialogue.save_to_json, Dialogue.load_from_json, dialogue_round]

/-- Claim C2: `save_to_pickle` followed by `load_from_pickle` on the
same path reproduces the pickled `Dialogue` exactly, and
`save_batch_to_pickle` followed by `load_batch_from_pickle` reproduces
the pickled list with the same length and element order (the decoded
graph is the stored list of dialogue objects, element for element); in
particular a two-element batch `[d1, d2]` round-trips in order. -/
theorem claim_C2_pickle_round_trip :
    (∀ (fs : PickleFS) (d : Dialogue) (p : String),
      Dialogue.load_from_pickle (Dialogue.save_to_pickle fs d p) p
        = .ok (.dialogue d)) ∧
    (∀ (fs : PickleFS) (ds : List Dialogue) (p : String),
      Dialogue.load_batch_from_pickle (Dialogue.save_batch_to_pickle fs ds p) p
        = .ok (.pyList (ds.map PyObj.dialogue)) ∧
      (ds.map PyObj.dialogue).length = ds.length) ∧
    (∀ (fs : PickleFS) (d1 d2 : Dialogue) (p : String),
      Dialogue.load_batch_from_pickle
          (Dialogue.save_batch_to_pickle fs [d1, d2] p) p
        = .ok (.pyList [.dialogue d1, .dialogue d2])) := by
  refine ⟨fun fs d p => ?_, fun fs ds p => ⟨?_, by simp⟩, fun fs d1 d2 p => ?_⟩
  · simp [Dialogue.save_to_pickle, Dialogue.load_from_pickle]
  · simp [Dialogue.save_batch_to_pickle, Dialogue.load_batch_from_pickle]
  · simp [Dialogue.save_batch_to_pickle, Dialogue.load_batch_from_pickle]

/-- Claim C3: validating a `Role` from a mapping that has no `age`
member fails with the `ValidationError`-class outcome, and so does a
mapping binding `age` to the non-integer string `"thirty"`; neither
construction can silently succeed. -/
theorem claim_C3_role_validation (members : List (String × JValue)) :
    (members.lookup "age" = none →
      Role.validate members = .error .mk) ∧
    (members.lookup "age" = some (.str "thirty") →
      Role.validate members = .error .mk) := by
  constructor
  · intro hl
    rcases Role.validate_ok_or_error members with ⟨r, hr⟩ | he
    · obtain ⟨v, hv, _⟩ := Role.validate_ok_age hr
      rw [hl] at hv
      exact Option.noConfusion hv
    · exact he
  · intro hl
    rcases Role.validate_ok_or_error members with ⟨r, hr⟩ | he
    · obtain ⟨v, hv, hint⟩ := Role.validate_ok_age hr
      rw [hl] at hv
      obtain rfl : JValue.str "thirty" = v := Option.some.inj hv
      rw [show asInt (JValue.str "thirty") = .error .mk from rfl] at hint
      exact Except.noConfusion hint
    · exact he

/-- Witness for claim C3: a concrete mapping supplying every `Role`
field except `age`, and the same mapping with `age` bound to
`"thirty"`, both fail validation. -/
theorem claim_C3_witness :
    Role.validate
      [("name", .str "Ana"), ("gender", .str "F"),
       ("occupation", .str "Doctor"), ("nationality", .str "Spanish"),
       ("personality_traits", .arr [.str "calm", .str "direct"]),
       ("relationship_context", .str "colleague"),
       ("self_introduction", .str "...")] = .error .mk ∧
    Role.validate
      [("name", .str "Ana"), ("gender", .str "F"),
       ("age", .str "thirty"),
       ("occupation", .str "Doctor"), ("nationality", .str "Spanish"),
       ("personality_traits", .arr [.str "calm", .str "direct"]),
       ("relationship_context", .str "colleague"),
       ("self_introduction", .str "...")] = .error .mk :=
  ⟨(claim_C3_role_validation _).1 rfl, (claim_C3_role_validation _).2 rfl⟩

/-- Claim C4: a `DialogueScenario` built from a mapping carrying the
four required fields but no `dialogue_language` validates successfully
with `dialogue_language = "English"`; with `custom_prompt` also omitted
the result carries the empty custom prompt, and with `custom_prompt`
supplied the supplied value is kept. -/
theorem claim_C4_scenario_defaults :
    (∀ a b c d : String,
      DialogueScenario.validate
        [("dialogue_type", .str a), ("temporal_context", .str b),
         ("spatial_context", .str c), ("cultural_background", .str d)]
        = .ok { dialogue_type := a, temporal_context := b,
                spatial_context := c, cultural_background := d,
                dialogue_language := "English", custom_prompt := some "" }) ∧
    (∀ a b c d cp : String,
      DialogueScenario.validate
        [("dialogue_type", .str a), ("temporal_context", .str b),
         ("spatial_context", .str c), ("cultural_background", .str d),
         ("custom_prompt", .str cp)]
        = .ok { dialogue_type := a, temporal_context := b,
                spatial_context := c, cultural_background := d,
                dialogue_language := "English", custom_prompt := some cp }) :=
  ⟨fun _ _ _ _ => rfl, fun _ _ _ _ _ => rfl⟩

/-- Claim C5: a `Dialogue` constructed with only `scenario` supplied
has `metadata`, `script`, `conversation` and `consistency_evaluation`
all absent; validating its serialization reproduces it exactly, and so
does a full save-then-load through a file, null-ness included. -/
theorem claim_C5_dialogue_only_scenario (s : DialogueScenario) :
    ({ scenario := some s : Dialogue }.metadata = none ∧
     { scenario := some s : Dialogue }.script = none ∧
     { scenario := some s : Dialogue }.conversation = none ∧
     { scenario := some s : Dialogue }.consistency_evaluation = none) ∧
    Dialogue.fromJ (Dialogue.toJ { scenario := some s })
      = .ok { scenario := some s } ∧
    (∀ (fs : JsonFS) (p : String) (pretty : Bool),
      Dialogue.load_from_json
          (Dialogue.save_to_json fs { scenario := some s } p pretty) p
        = .ok { scenario := some s }) :=
  ⟨⟨rfl, rfl, rfl, rfl⟩, dialogue_round _, fun fs p pretty => by
    simp [Dialogue.save_to_json, Dialogue.load_from_json, dialogue_round]⟩

/-- Claim C6: `personality_traits` and `key_points` are ordered lists
(order and duplicates are inherent to the `List` model), and a `Role`
or `ConversationContext` validates back from its serialization with the
identical ordered list; in particular the example role with traits
`["calm", "direct"]` round-trips to exactly that sequence. -/
theorem claim_C6_list_order :
    (∀ r : Role, Role.fromJ r.toJ = .ok r) ∧
    (∀ c : ConversationContext, ConversationContext.fromJ c.toJ = .ok c) ∧
    (Role.fromJ (Role.toJ
        { name := "Ana", gender := "F", age := 34, occupation := "Doctor",
          nationality := "Spanish", personality_traits := ["calm", "direct"],
          relationship_context := "colleague",
          self_introduction := "..." })).map Role.personality_traits
      = .ok ["calm", "direct"] ∧
    (Role.fromJ (Role.toJ
        { name := "Ana", gender := "F", age := 34, occupation := "Doctor",
          nationality := "Spanish", personality_traits := ["calm", "calm"],
          relationship_context := "colleague",
          self_introduction := "..." })).map Role.personality_traits
      = .ok ["calm", "calm"] := by
  refine ⟨role_round, context_round, ?_, ?_⟩
  · rw [role_round]
    rfl
  · rw [role_round]
    rfl

/-- Counterexample to claim C7: the schema-generation exclusion list in
`DialogueScenario.model_config` does not name the `dialogue_language`
field at all (the source writes `"language"` instead). -/
theorem claim_C7_counterexample :
    "dialogue_language" ∉ DialogueScenario.model_config_schema_exclude := by
  decide

/-- Claim C7 as amended: the exclusion list names exactly `"language"`
and `"custom_prompt"`; of these only `custom_prompt` is a declared
field of the record, while `"language"` matches no field (the field is
named `dialogue_language`), so among actual fields only `custom_prompt`
is excluded from generated schema views. -/
theorem claim_C7_amended :
    DialogueScenario.model_config_schema_exclude
      = ["language", "custom_prompt"] ∧
    "custom_prompt" ∈ DialogueScenario.field_names ∧
    "language" ∉ DialogueScenario.field_names ∧
    "dialogue_language" ∉ DialogueScenario.model_config_schema_exclude :=
  ⟨rfl, by decide, by decide, by decide⟩

/-- Claim C8: `load_from_json` fails with the `IOError`-class outcome
when the file is missing, with the `ParseError`-class outcome when the
content is not well-formed JSON, and otherwise its result is exactly
the outcome of validating the parsed value by the construction rules —
a mismatch surfaces as the `ValidationError`-class outcome and a
success reconstructs the dialogue; every failure propagates to the
caller. -/
theorem claim_C8_load_from_json_outcomes (fs : JsonFS) (p : String) :
    (fs p = none → Dialogue.load_from_json fs p = .error .ioError) ∧
    (fs p = some .malformed →
      Dialogue.load_from_json fs p = .error .parseError) ∧
    (∀ (pretty : Bool) (v : JValue), fs p = some (.wellFormed pretty v) →
      Dialogue.load_from_json fs p =
        match Dialogue.fromJ v with
        | .ok d => .ok d
        | .error _ => .error .validationError) := by
  refine ⟨fun h => ?_, fun h => ?_, fun pretty v h => ?_⟩
  · simp [Dialogue.load_from_json, h]
  · simp [Dialogue.load_from_json, h]
  · simp [Dialogue.load_from_json, h]

/-- Witness for claim C8: a missing file yields the IO outcome,
malformed content yields the parse outcome, and well-formed content
that does not match the `Dialogue` schema yields the validation
outcome. -/
theorem claim_C8_witness :
    Dialogue.load_from_json (fun _ => none) "a" = .error .ioError ∧
    Dialogue.load_from_json (fun _ => some .malformed) "a"
      = .error .parseError ∧
    Dialogue.load_from_json (fun _ => some (.wellFormed true (.int 7))) "a"
      = .error .validationError := by
  refine ⟨(claim_C8_load_from_json_outcomes (fun _ => none) "a").1 rfl,
          (claim_C8_load_from_json_outcomes (fun _ => some .malformed) "a").2.1
            rfl, ?_⟩
  rw [(claim_C8_load_from_json_outcomes
        (fun _ => some (.wellFormed true (.int 7))) "a").2.2 true (.int 7) rfl]
  rfl

/-- Claim C9: `load_from_pickle` and `load_batch_from_pickle` apply no
schema or field validation — whatever object graph the decoder accepts
is returned to the caller unchanged, even when it is not a `Dialogue`
(respectively not a list of dialogues); the declared return type is not
enforced. -/
theorem claim_C9_pickle_load_unvalidated (fs : PickleFS) (p : String)
    (o : PyObj) (h : fs p = some (.stored o)) :
    Dialogue.load_from_pickle fs p = .ok o ∧
    Dialogue.load_batch_from_pickle fs p = .ok o := by
  constructor
  · simp [Dialogue.load_from_pickle, h]
  · simp [Dialogue.load_batch_from_pickle, h]

/-- Witness for claim C9: a pickle file decoding to the bare string
object `"x"` — not a `Dialogue` and not a list — is returned unchanged
by both loaders. -/
theorem claim_C9_witness :
    Dialogue.load_from_pickle (fun _ => some (.stored (.pyStr "x"))) "p"
      = .ok (.pyStr "x") ∧
    Dialogue.load_batch_from_pickle (fun _ => some (.stored (.pyStr "x"))) "p"
      = .ok (.pyStr "x") :=
  claim_C9_pickle_load_unvalidated
    (fun _ => some (.stored (.pyStr "x"))) "p" (.pyStr "x") rfl

/-- Claim C10: `save_to_json` called without the `pretty` argument
defaults to pretty mode, so it writes exactly what an explicit
`pretty = true` call writes; a `pretty = false` call writes different
file content, so the default is observable. -/
theorem claim_C10_save_default_pretty (fs : JsonFS) (d : Dialogue)
    (p : String) :
    Dialogue.save_to_json fs d p = Dialogue.save_to_json fs d p true ∧
    (Dialogue.save_to_json fs d p) p = some (.wellFormed true d.toJ) ∧
    (Dialogue.save_to_json fs d p) p ≠ (Dialogue.save_to_json fs d p false) p := by
  refine ⟨rfl, by simp [Dialogue.save_to_json], ?_⟩
  simp [Dialogue.save_to_json]

end SDF
